import Mathlib

/-!
Shallow embedding of the key rotation endpoint `roll` from
`src/endpoints/identifier/keys/roll.ts`, together with the data model and
collaborators it uses.  The endpoint source is the authority for the
orchestration logic; the collaborating modules (models, errors, store) are
not part of the visible source, so their definitions below are modelled
from the specification and each such definition says so in its doc comment.
-/

/-- Key use as it flows through the endpoint at runtime.  The TypeScript enum
declares two members, `Signing` and `KeyAgreement`, but the request parser
performs an unchecked generic cast of the raw query string value, so an
unrecognized value can reach the comparison `keyUse === KeyUse.Signing`
(roll.ts line 103); the constructor `Unknown` models such a runtime value. -/
inductive KeyUse
  | Signing
  | KeyAgreement
  | Unknown (value : String)
deriving DecidableEq

/-- Modelled from the spec: `KeyAlgorithm` is an enumerated family
(ECDSA, EdDSA, RSA-class); the models module is not in the visible source. -/
inductive KeyAlgorithm
  | ECDSA
  | EdDSA
  | RSA
deriving DecidableEq

/-- Modelled from the spec: the union of `EcdsaCurve` and `EddsaCurve`
values accepted by the key material provider; the models module is not in
the visible source. -/
inductive Curve
  | P256
  | P384
  | P521
  | Ed25519
deriving DecidableEq

/-- Modelled from the spec: `KeyState` is enumerated as `Current` and
`Historical`; the models module is not in the visible source. -/
inductive KeyState
  | Current
  | Historical
deriving DecidableEq

/-- Modelled from the spec: a JSON Web Key rendering of key material.  The
field `x` stands for the public material and the optional field `d` for the
private material; the models module is not in the visible source. -/
structure Jwk where
  kty : String
  crv : Option Curve
  x : String
  d : Option String
deriving DecidableEq

/-- Modelled from the spec: a `KeyPair` entity carries an id, algorithm,
size, optional curve, use, state, public material and optional private
material; the models module is not in the visible source. -/
structure KeyPair where
  id : String
  algorithm : KeyAlgorithm
  size : Nat
  curve : Option Curve
  use : KeyUse
  state : KeyState
  publicKey : String
  privateKey : Option String
deriving DecidableEq

/-- Modelled from the spec: `asJwk` renders a key pair as a JWK; the
boolean argument selects whether the private material is included, and
`roll` always passes `false` (roll.ts line 111). -/
def KeyPair.asJwk (k : KeyPair) (includePrivate : Bool) : Jwk :=
  { kty := match k.algorithm with
      | KeyAlgorithm.ECDSA => "EC"
      | KeyAlgorithm.EdDSA => "OKP"
      | KeyAlgorithm.RSA => "RSA"
    crv := k.curve
    x := k.publicKey
    d := if includePrivate then k.privateKey else none }

/-- Modelled from the spec: the verification method type tag used by the
endpoint is `JsonWebKey2020` (roll.ts line 110). -/
inductive VerificationMethodType
  | JsonWebKey2020
deriving DecidableEq

/-- Modelled from the spec: a verification method entry of a controller
document. -/
structure VerificationMethod where
  id : String
  controller : String
  type : VerificationMethodType
  publicKeyJwk : Jwk
deriving DecidableEq

/-- Modelled from the spec: the two relationship lists of a controller
document, `Authentication` and `KeyAgreement`. -/
inductive VerificationMethodRelationship
  | Authentication
  | KeyAgreement
deriving DecidableEq

/-- Modelled from the spec: a controller document holds an id, an ordered
sequence of verification methods, and per-relationship ordered sequences of
verification method references (by id). -/
structure ControllerDocument where
  id : String
  verificationMethod : List VerificationMethod
  authentication : List String
  keyAgreement : List String
deriving DecidableEq

/-- View a relationship list of the document by relationship name. -/
def ControllerDocument.relationshipList (doc : ControllerDocument) :
    VerificationMethodRelationship → List String
  | VerificationMethodRelationship.Authentication => doc.authentication
  | VerificationMethodRelationship.KeyAgreement => doc.keyAgreement

/-- Modelled from the spec: the first half of `addVerificationMethod`
appends the method to the method sequence unless a method with the same id
is already present. -/
def ControllerDocument.addMethodIfAbsent (doc : ControllerDocument)
    (m : VerificationMethod) : ControllerDocument :=
  if doc.verificationMethod.any (fun v => decide (v.id = m.id)) then doc
  else { doc with verificationMethod := doc.verificationMethod ++ [m] }

/-- Modelled from the spec: the second half of `addVerificationMethod`
appends a reference to the method id to the named relationship list unless
already present there. -/
def ControllerDocument.addToRelationship (doc : ControllerDocument)
    (methodId : String) : VerificationMethodRelationship → ControllerDocument
  | VerificationMethodRelationship.Authentication =>
      if methodId ∈ doc.authentication then doc
      else { doc with authentication := doc.authentication ++ [methodId] }
  | VerificationMethodRelationship.KeyAgreement =>
      if methodId ∈ doc.keyAgreement then doc
      else { doc with keyAgreement := doc.keyAgreement ++ [methodId] }

/-- Modelled from the spec: `addVerificationMethod(method, relationships)`
appends the method to the method sequence if not already present by id,
then appends a reference to each named relationship list if not already
present there; the controller document module is not in the visible
source.  Called by `roll` at roll.ts line 107. -/
def ControllerDocument.addVerificationMethod (doc : ControllerDocument)
    (m : VerificationMethod)
    (relationships : List VerificationMethodRelationship) : ControllerDocument :=
  relationships.foldl (fun d r => d.addToRelationship m.id r)
    (doc.addMethodIfAbsent m)

/-- Modelled from the spec: the `Identifier` aggregate root owns the key
pairs and the controller document. -/
structure Identifier where
  id : String
  keyPairs : List KeyPair
  controllerDocument : ControllerDocument
deriving DecidableEq

/-- Boolean test used for current key lookup: the key has the requested use
and state `Current`. -/
def isCurrentFor (u : KeyUse) (k : KeyPair) : Bool :=
  decide (k.use = u ∧ k.state = KeyState.Current)

/-- Modelled from the spec: `getCurrentKey(use)` returns the key pair with
state `Current` and matching use, or an absent result; the aggregate module
is not in the visible source.  Called by `roll` at roll.ts line 72. -/
def Identifier.getCurrentKey (i : Identifier) (u : KeyUse) : Option KeyPair :=
  i.keyPairs.find? (isCurrentFor u)

/-- The failure kinds the rotation endpoint can surface.  `NotFound` stands
for the not-found-or-forbidden failure of the store read and
`PersistFailure` for a failing `addOrUpdate`. -/
inductive RollError
  | IdentifierNotProvided
  | KeyNotConfigured (identifierId : String) (use : KeyUse)
  | InvalidKeyParameters
  | NotFound (identifierId : String)
  | PersistFailure
deriving DecidableEq

/-- Modelled from the spec: the status code of the structured error
response produced by `toErrorResponse`; request-shape and validation
errors are 400-class, the store read failure is 404-class, and a persist
failure propagates as an internal fault. -/
def errorStatusCode : RollError → Nat
  | RollError.IdentifierNotProvided => 400
  | RollError.KeyNotConfigured _ _ => 400
  | RollError.InvalidKeyParameters => 400
  | RollError.NotFound _ => 404
  | RollError.PersistFailure => 500

/-- The body of a response: either the updated controller document on
success or a structured error. -/
inductive ResponseBody
  | document (doc : ControllerDocument)
  | error (e : RollError)
deriving DecidableEq

/-- An HTTP-shaped response, as returned by `roll`. -/
structure Response where
  statusCode : Nat
  body : ResponseBody
deriving DecidableEq

/-- Modelled from the spec: structured error responses carry the error as
body with its mapped status code. -/
def errorResponse (e : RollError) : Response :=
  { statusCode := errorStatusCode e, body := ResponseBody.error e }

/-- A store access performed during a request, recorded so that claims
about which store operations run can be stated. -/
inductive StoreOp
  | read (identifierId : String) (caller : String)
  | addOrUpdate (identifierId : String)
deriving DecidableEq

/-- The persistent store is an association list from identifier id to
aggregate. -/
abbrev Store : Type := List (String × Identifier)

/-- Look an identifier up in the store by id. -/
def storeLookup (store : Store) (identifierId : String) : Option Identifier :=
  (List.find? (fun p => decide (p.1 = identifierId)) store).map Prod.snd

/-- Modelled from the spec: `read(id, caller)` returns the aggregate when
the caller is authorized for it and it exists, and fails with a
not-found-or-forbidden kind otherwise; the store module is not in the
visible source.  Called by `roll` at roll.ts line 63. -/
def storeRead (store : Store) (identifierId : String) (caller : String)
    (authorized : String → String → Bool) : Option Identifier :=
  if authorized caller identifierId then storeLookup store identifierId
  else none

/-- Modelled from the spec: `addOrUpdate(identifier)` replaces the stored
aggregate with the same id, or appends it when absent; the store module is
not in the visible source.  Called by `roll` at roll.ts line 115. -/
def storeAddOrUpdate : Store → Identifier → Store
  | [], i => [(i.id, i)]
  | p :: rest, i =>
      if p.1 = i.id then (p.1, i) :: rest else p :: storeAddOrUpdate rest i

/-- Modelled from the spec: the key material provider validates the
algorithm, size and curve combination and, when valid, produces a fresh
`Current` key pair with both public and private material populated; it
fails with `InvalidKeyParameters` when the curve is absent-but-required or
incompatible with the algorithm family, or the size is not permitted.
The fresh id and material are supplied by the environment. -/
def validKeyParameters (alg : KeyAlgorithm) (size : Nat)
    (curve : Option Curve) : Bool :=
  match alg, curve with
  | KeyAlgorithm.ECDSA, some c =>
      decide (c = Curve.P256 ∨ c = Curve.P384 ∨ c = Curve.P521)
  | KeyAlgorithm.EdDSA, some c => decide (c = Curve.Ed25519)
  | KeyAlgorithm.RSA, none => decide (size = 2048 ∨ size = 3072 ∨ size = 4096)
  | _, _ => false

/-- Modelled from the spec: `KeyPairCreator.createKey(algorithm, use, size,
curve)` as called by `roll` at roll.ts line 90; the creator module is not
in the visible source.  `freshId` and `material` stand for the freshly
generated unique id and the generated public and private material. -/
def KeyPairCreator.createKey (alg : KeyAlgorithm) (u : KeyUse) (size : Nat)
    (curve : Option Curve) (freshId : String) (material : String × String) :
    Except RollError KeyPair :=
  if validKeyParameters alg size curve then
    Except.ok
      { id := freshId
        algorithm := alg
        size := size
        curve := curve
        use := u
        state := KeyState.Current
        publicKey := material.1
        privateKey := some material.2 }
  else Except.error RollError.InvalidKeyParameters

/-- The request as seen by the endpoint after transport-level parsing:
caller identity, the identifier path input (the empty string models a
missing id, matching the falsiness test at roll.ts line 52), and the four
optional query parameters. -/
structure Request where
  caller : String
  identifier : String
  use : Option KeyUse
  alg : Option KeyAlgorithm
  size : Option Nat
  curve : Option Curve
deriving DecidableEq

/-- Modelled from the spec: `getQueryParameter` returns the typed query
parameter when present and the supplied default otherwise; the request
parser module is not in the visible source. -/
def getQueryParameter {α : Type} (value : Option α) (defaultValue : α) : α :=
  match value with
  | some v => v
  | none => defaultValue

/-- The requested key use: the `use` query parameter with default
`Signing` (roll.ts line 48). -/
def requestedUse (req : Request) : KeyUse :=
  getQueryParameter req.use KeyUse.Signing

/-- The effective algorithm: the `alg` query parameter with the current
key algorithm as default (roll.ts line 85). -/
def effectiveAlg (req : Request) (currentKey : KeyPair) : KeyAlgorithm :=
  getQueryParameter req.alg currentKey.algorithm

/-- The effective size: the `size` query parameter with the current key
size as default (roll.ts line 86). -/
def effectiveSize (req : Request) (currentKey : KeyPair) : Nat :=
  getQueryParameter req.size currentKey.size

/-- The effective curve: the `curve` query parameter with the (optional)
current key curve as default (roll.ts line 87). -/
def effectiveCurve (req : Request) (currentKey : KeyPair) : Option Curve :=
  match req.curve with
  | some c => some c
  | none => currentKey.curve

/-- The retired form of a key pair: state set to `Historical` and the
private key removed (roll.ts lines 93 and 94). -/
def retiredKey (k : KeyPair) : KeyPair :=
  { k with state := KeyState.Historical, privateKey := none }

/-- In-place mutation of the current key inside the key list: `roll`
mutates, through the reference returned by `getCurrentKey`, the first key
of the list with the requested use and state `Current` (roll.ts lines 93
and 94); in a pure setting this replaces that first matching element by
its retired form. -/
def retireFirstCurrent : List KeyPair → KeyUse → List KeyPair
  | [], _ => []
  | k :: rest, u =>
      if isCurrentFor u k then retiredKey k :: rest
      else k :: retireFirstCurrent rest u

/-- The relationship chosen for the new verification method: the ternary
at roll.ts lines 102 to 105 maps `Signing` to `Authentication` and every
other use value to `KeyAgreement`. -/
def rollRelationship : KeyUse → VerificationMethodRelationship
  | KeyUse.Signing => VerificationMethodRelationship.Authentication
  | _ => VerificationMethodRelationship.KeyAgreement

/-- The verification method `roll` builds for the new key (roll.ts lines
107 to 112): the key id, the document id as controller, the
`JsonWebKey2020` type tag, and the JWK rendering without private
material. -/
def newVerificationMethod (identifier : Identifier) (newKey : KeyPair) :
    VerificationMethod :=
  { id := newKey.id
    controller := identifier.controllerDocument.id
    type := VerificationMethodType.JsonWebKey2020
    publicKeyJwk := newKey.asJwk false }

/-- The aggregate after the in-memory mutation steps of `roll` (roll.ts
lines 93 to 112): the current key retired in place, the new key appended
to the key list, and the new verification method appended to the
controller document under the chosen relationship. -/
def updatedIdentifier (identifier : Identifier) (keyUse : KeyUse)
    (newKey : KeyPair) : Identifier :=
  { identifier with
    keyPairs := retireFirstCurrent identifier.keyPairs keyUse ++ [newKey]
    controllerDocument :=
      identifier.controllerDocument.addVerificationMethod
        (newVerificationMethod identifier newKey) [rollRelationship keyUse] }

/-- The environment a single `roll` request runs in: the store contents,
the authorization answer of the store, the fresh id and material the key
material provider will generate, and whether the persist step fails. -/
structure RollEnv where
  store : Store
  authorized : String → String → Bool
  freshId : String
  freshMaterial : String × String
  persistFails : Bool

/-- The observable outcome of one `roll` request: the response, the store
contents afterwards, and the store operations performed. -/
structure RollOutcome where
  response : Response
  store : Store
  storeOps : List StoreOp
deriving DecidableEq

/-- The rotation endpoint, embedding `roll` of roll.ts: check the
identifier path input, read the aggregate from the store, look up the
current key for the requested use, resolve the effective parameters,
generate the new key, retire the current key, append the new key, add the
verification method to the controller document, persist, and return 201
with the updated document; each failure returns the structured error of
its kind, and a persist failure leaves the store unchanged. -/
def roll (env : RollEnv) (req : Request) : RollOutcome :=
  if req.identifier = "" then
    { response := errorResponse RollError.IdentifierNotProvided
      store := env.store
      storeOps := [] }
  else
    match storeRead env.store req.identifier req.caller env.authorized with
    | none =>
        { response := errorResponse (RollError.NotFound req.identifier)
          store := env.store
          storeOps := [StoreOp.read req.identifier req.caller] }
    | some identifier =>
        match identifier.getCurrentKey (requestedUse req) with
        | none =>
            { response :=
                errorResponse
                  (RollError.KeyNotConfigured req.identifier (requestedUse req))
              store := env.store
              storeOps := [StoreOp.read req.identifier req.caller] }
        | some currentKey =>
            match KeyPairCreator.createKey (effectiveAlg req currentKey)
                (requestedUse req) (effectiveSize req currentKey)
                (effectiveCurve req currentKey) env.freshId
                env.freshMaterial with
            | Except.error e =>
                { response := errorResponse e
                  store := env.store
                  storeOps := [StoreOp.read req.identifier req.caller] }
            | Except.ok newKey =>
                if env.persistFails then
                  { response := errorResponse RollError.PersistFailure
                    store := env.store
                    storeOps :=
                      [StoreOp.read req.identifier req.caller,
                       StoreOp.addOrUpdate
                         (updatedIdentifier identifier (requestedUse req)
                           newKey).id] }
                else
                  { response :=
                      { statusCode := 201
                        body :=
                          ResponseBody.document
                            (updatedIdentifier identifier (requestedUse req)
                              newKey).controllerDocument }
                    store :=
                      storeAddOrUpdate env.store
                        (updatedIdentifier identifier (requestedUse req) newKey)
                    storeOps :=
                      [StoreOp.read req.identifier req.caller,
                       StoreOp.addOrUpdate
                         (updatedIdentifier identifier (requestedUse req)
                           newKey).id] }

/-- Number of keys in a list that are `Current` for a given use. -/
def countCurrent (ks : List KeyPair) (u : KeyUse) : Nat :=
  ks.countP (isCurrentFor u)

/-- A controller document is free of private material when no verification
method carries the private JWK component. -/
def docHasNoPrivate (doc : ControllerDocument) : Prop :=
  ∀ m ∈ doc.verificationMethod, m.publicKeyJwk.d = none

/-- A concrete current signing key used to evaluate the theorems. -/
def sampleKey : KeyPair :=
  { id := "key-1"
    algorithm := KeyAlgorithm.ECDSA
    size := 256
    curve := some Curve.P256
    use := KeyUse.Signing
    state := KeyState.Current
    publicKey := "pub-1"
    privateKey := some "priv-1" }

/-- A concrete controller document with no verification methods yet. -/
def sampleDoc : ControllerDocument :=
  { id := "did:example:123"
    verificationMethod := []
    authentication := []
    keyAgreement := [] }

/-- A concrete identifier aggregate holding one current signing key. -/
def sampleIdentifier : Identifier :=
  { id := "did:example:123"
    keyPairs := [sampleKey]
    controllerDocument := sampleDoc }

/-- A concrete environment: the store holds the sample aggregate, every
caller is authorized, the provider will generate key-2, and persistence
succeeds. -/
def sampleEnv : RollEnv :=
  { store := [("did:example:123", sampleIdentifier)]
    authorized := fun _ _ => true
    freshId := "key-2"
    freshMaterial := ("pub-2", "priv-2")
    persistFails := false }

/-- A concrete rotation request with no query parameter overrides. -/
def sampleReq : Request :=
  { caller := "owner"
    identifier := "did:example:123"
    use := none
    alg := none
    size := none
    curve := none }

/-- The sample request asking for the key agreement use, for which the
sample aggregate has no key. -/
def kaReq : Request := { sampleReq with use := some KeyUse.KeyAgreement }

/-- The sample request overriding the algorithm to EdDSA, which is
incompatible with the inherited P-256 curve. -/
def eddsaReq : Request := { sampleReq with alg := some KeyAlgorithm.EdDSA }

/-- The sample environment with a failing persist step. -/
def failEnv : RollEnv := { sampleEnv with persistFails := true }

/-- The sample request with the identifier path input missing. -/
def noIdReq : Request := { sampleReq with identifier := "" }

/-- A concrete current key whose use is an unrecognized runtime value. -/
def encKey : KeyPair :=
  { id := "key-e1"
    algorithm := KeyAlgorithm.ECDSA
    size := 256
    curve := some Curve.P256
    use := KeyUse.Unknown "encryption"
    state := KeyState.Current
    publicKey := "pub-e1"
    privateKey := some "priv-e1" }

/-- A concrete aggregate holding only the unrecognized-use key. -/
def encIdentifier : Identifier :=
  { id := "did:example:enc"
    keyPairs := [encKey]
    controllerDocument :=
      { id := "did:example:enc"
        verificationMethod := []
        authentication := []
        keyAgreement := [] } }

/-- A concrete environment whose store holds the unrecognized-use
aggregate. -/
def encEnv : RollEnv :=
  { store := [("did:example:enc", encIdentifier)]
    authorized := fun _ _ => true
    freshId := "key-e2"
    freshMaterial := ("pub-e2", "priv-e2")
    persistFails := false }

/-- A concrete rotation request whose use parameter is an unrecognized
runtime value. -/
def encReq : Request :=
  { caller := "owner"
    identifier := "did:example:enc"
    use := some (KeyUse.Unknown "encryption")
    alg := none
    size := none
    curve := none }

/-- A retired key is never counted as current: its state is Historical. -/
theorem isCurrentFor_retiredKey (u : KeyUse) (k : KeyPair) :
    isCurrentFor u (retiredKey k) = false := by
  simp [isCurrentFor, retiredKey]

/-- A successful find? splits the list around the found element, with the
predicate false on everything before it. -/
theorem find?_eq_some_split {α : Type} (p : α → Bool) :
    ∀ (l : List α) (a : α), l.find? p = some a →
      ∃ l₁ l₂, l = l₁ ++ a :: l₂ ∧ ∀ b ∈ l₁, p b = false
  | [], a, h => by simp [List.find?] at h
  | x :: l, a, h => by
    by_cases hx : p x = true
    · rw [List.find?_cons_of_pos _ hx] at h
      refine ⟨[], l, ?_, by simp⟩
      injection h with h
      rw [h]
      rfl
    · rw [List.find?_cons_of_neg _ hx] at h
      obtain ⟨l₁, l₂, hsplit, hall⟩ := find?_eq_some_split p l a h
      refine ⟨x :: l₁, l₂, by rw [hsplit]; rfl, ?_⟩
      intro b hb
      rcases List.mem_cons.mp hb with hbx | hbl
      · rw [hbx]
        exact Bool.eq_false_iff.mpr hx
      · exact hall b hbl

/-- Retiring the first current key of a split list replaces exactly the
found element by its retired form. -/
theorem retireFirstCurrent_eq_append (u : KeyUse) (cur : KeyPair) :
    ∀ (l₁ l₂ : List KeyPair), (∀ b ∈ l₁, isCurrentFor u b = false) →
      isCurrentFor u cur = true →
      retireFirstCurrent (l₁ ++ cur :: l₂) u = l₁ ++ retiredKey cur :: l₂
  | [], l₂, _, hcur => by simp [retireFirstCurrent, hcur]
  | x :: l₁, l₂, hall, hcur => by
    have hx : isCurrentFor u x = false := hall x (List.mem_cons_self x l₁)
    simp only [List.cons_append, retireFirstCurrent, hx, Bool.false_eq_true,
      if_false, List.append_eq]
    rw [retireFirstCurrent_eq_append u cur l₁ l₂
      (fun b hb => hall b (List.mem_cons_of_mem x hb)) hcur]

/-- Inversion for a successful key generation: the produced key is exactly
the record built from the resolved parameters. -/
theorem createKey_ok_inv {alg : KeyAlgorithm} {u : KeyUse} {size : Nat}
    {curve : Option Curve} {freshId : String} {material : String × String}
    {k : KeyPair}
    (h : KeyPairCreator.createKey alg u size curve freshId material =
      Except.ok k) :
    k = { id := freshId
          algorithm := alg
          size := size
          curve := curve
          use := u
          state := KeyState.Current
          publicKey := material.1
          privateKey := some material.2 } := by
  unfold KeyPairCreator.createKey at h
  split at h
  · injection h with h
    exact h.symm
  · exact absurd h (by simp)

/-- Looking up the id just written by addOrUpdate returns the written
aggregate. -/
theorem storeLookup_storeAddOrUpdate (i : Identifier) :
    ∀ s : Store, storeLookup (storeAddOrUpdate s i) i.id = some i
  | [] => by simp [storeAddOrUpdate, storeLookup, List.find?]
  | p :: rest => by
    by_cases hp : p.1 = i.id
    · simp [storeAddOrUpdate, hp, storeLookup, List.find?]
    · simp only [storeAddOrUpdate, if_neg hp, storeLookup]
      rw [List.find?_cons_of_neg _ (by simp [hp])]
      exact storeLookup_storeAddOrUpdate i rest

/-- No structured error response carries the success status code. -/
theorem errorStatusCode_ne_201 (e : RollError) : errorStatusCode e ≠ 201 := by
  cases e <;> simp [errorStatusCode]

/-- On the success path, roll produces exactly the 201 response carrying
the updated document, the store with the updated aggregate written, and the
read followed by the write. -/
theorem roll_success_eq (env : RollEnv) (req : Request)
    (identifier : Identifier) (currentKey newKey : KeyPair)
    (hne : req.identifier ≠ "")
    (hread : storeRead env.store req.identifier req.caller env.authorized =
      some identifier)
    (hcur : identifier.getCurrentKey (requestedUse req) = some currentKey)
    (hcreate : KeyPairCreator.createKey (effectiveAlg req currentKey)
      (requestedUse req) (effectiveSize req currentKey)
      (effectiveCurve req currentKey) env.freshId env.freshMaterial =
      Except.ok newKey)
    (hpf : env.persistFails = false) :
    roll env req =
      { response :=
          { statusCode := 201
            body :=
              ResponseBody.document
                (updatedIdentifier identifier (requestedUse req)
                  newKey).controllerDocument }
        store :=
          storeAddOrUpdate env.store
            (updatedIdentifier identifier (requestedUse req) newKey)
        storeOps :=
          [StoreOp.read req.identifier req.caller,
           StoreOp.addOrUpdate
             (updatedIdentifier identifier (requestedUse req) newKey).id] } := by
  simp [roll, hne, hread, hcur, hcreate, hpf]

/-- A 201 response can only arise on the success path: the identifier was
provided, persistence succeeded, the aggregate was read, a current key was
found, and the key generation succeeded. -/
theorem roll_success_inv (env : RollEnv) (req : Request)
    (hok : (roll env req).response.statusCode = 201) :
    req.identifier ≠ "" ∧ env.persistFails = false ∧
      ∃ (identifier : Identifier) (currentKey newKey : KeyPair),
        storeRead env.store req.identifier req.caller env.authorized =
          some identifier ∧
        identifier.getCurrentKey (requestedUse req) = some currentKey ∧
        KeyPairCreator.createKey (effectiveAlg req currentKey)
          (requestedUse req) (effectiveSize req currentKey)
          (effectiveCurve req currentKey) env.freshId env.freshMaterial =
          Except.ok newKey := by
  by_cases hne : req.identifier = ""
  · exfalso
    simp [roll, hne, errorResponse, errorStatusCode] at hok
  · cases hread : storeRead env.store req.identifier req.caller
        env.authorized with
    | none =>
      exfalso
      simp [roll, hne, hread, errorResponse, errorStatusCode] at hok
    | some identifier =>
      cases hcur : identifier.getCurrentKey (requestedUse req) with
      | none =>
        exfalso
        simp [roll, hne, hread, hcur, errorResponse, errorStatusCode] at hok
      | some currentKey =>
        cases hcreate : KeyPairCreator.createKey (effectiveAlg req currentKey)
            (requestedUse req) (effectiveSize req currentKey)
            (effectiveCurve req currentKey) env.freshId env.freshMaterial with
        | error e =>
          exfalso
          simp [roll, hne, hread, hcur, hcreate, errorResponse] at hok
          exact errorStatusCode_ne_201 e hok
        | ok newKey =>
          cases hpf : env.persistFails with
          | true =>
            exfalso
            simp [roll, hne, hread, hcur, hcreate, hpf, errorResponse,
              errorStatusCode] at hok
          | false =>
            exact ⟨hne, rfl, identifier, currentKey, newKey, rfl, hcur,
              hcreate⟩

/-- Success-path inversion relative to a known read aggregate and current
key: the request was well formed, persistence succeeded, and key
generation succeeded for the resolved parameters. -/
theorem roll_success_inv_given (env : RollEnv) (req : Request)
    (identifier : Identifier) (currentKey : KeyPair)
    (hread : storeRead env.store req.identifier req.caller env.authorized =
      some identifier)
    (hcur : identifier.getCurrentKey (requestedUse req) = some currentKey)
    (hok : (roll env req).response.statusCode = 201) :
    req.identifier ≠ "" ∧ env.persistFails = false ∧
      ∃ newKey : KeyPair,
        KeyPairCreator.createKey (effectiveAlg req currentKey)
          (requestedUse req) (effectiveSize req currentKey)
          (effectiveCurve req currentKey) env.freshId env.freshMaterial =
          Except.ok newKey := by
  obtain ⟨hne, hpf, identifier2, currentKey2, newKey, hread2, hcur2,
    hcreate⟩ := roll_success_inv env req hok
  rw [hread] at hread2
  injection hread2 with hI
  subst hI
  rw [hcur] at hcur2
  injection hcur2 with hC
  subst hC
  exact ⟨hne, hpf, newKey, hcreate⟩

/-- Appending a reference to a relationship list never changes the method
sequence. -/
theorem addToRelationship_verificationMethod (d : ControllerDocument)
    (mid : String) (r : VerificationMethodRelationship) :
    (d.addToRelationship mid r).verificationMethod = d.verificationMethod := by
  cases r <;> simp only [ControllerDocument.addToRelationship] <;> split <;> rfl

/-- After adding a reference for a relationship, the reference is in that
relationship list. -/
theorem mem_relationshipList_addToRelationship (d : ControllerDocument)
    (mid : String) (r : VerificationMethodRelationship) :
    mid ∈ (d.addToRelationship mid r).relationshipList r := by
  cases r
  · by_cases h : mid ∈ d.authentication
    · simp [ControllerDocument.addToRelationship,
        ControllerDocument.relationshipList, h]
    · simp [ControllerDocument.addToRelationship,
        ControllerDocument.relationshipList, h]
  · by_cases h : mid ∈ d.keyAgreement
    · simp [ControllerDocument.addToRelationship,
        ControllerDocument.relationshipList, h]
    · simp [ControllerDocument.addToRelationship,
        ControllerDocument.relationshipList, h]

/-- Adding under a single relationship is the method append followed by
one reference append. -/
theorem addVerificationMethod_single (doc : ControllerDocument)
    (m : VerificationMethod) (r : VerificationMethodRelationship) :
    doc.addVerificationMethod m [r] =
      (doc.addMethodIfAbsent m).addToRelationship m.id r := rfl

/-- Folding reference appends over any relationship list never changes the
method sequence. -/
theorem foldl_addToRelationship_verificationMethod (mid : String) :
    ∀ (rels : List VerificationMethodRelationship) (d : ControllerDocument),
      (List.foldl (fun d r => d.addToRelationship mid r) d
        rels).verificationMethod = d.verificationMethod
  | [], _ => rfl
  | r :: rels, d => by
    rw [List.foldl_cons, foldl_addToRelationship_verificationMethod mid rels,
      addToRelationship_verificationMethod]

/-- Every method of the document after addVerificationMethod was already
present or is the added method. -/
theorem mem_addVerificationMethod_methods (doc : ControllerDocument)
    (m : VerificationMethod) (rels : List VerificationMethodRelationship)
    (v : VerificationMethod)
    (hv : v ∈ (doc.addVerificationMethod m rels).verificationMethod) :
    v ∈ doc.verificationMethod ∨ v = m := by
  rw [ControllerDocument.addVerificationMethod,
    foldl_addToRelationship_verificationMethod] at hv
  unfold ControllerDocument.addMethodIfAbsent at hv
  by_cases h : doc.verificationMethod.any (fun w => decide (w.id = m.id)) = true
  · rw [if_pos h] at hv
    exact Or.inl hv
  · rw [if_neg h] at hv
    simp only [List.mem_append, List.mem_singleton] at hv
    exact hv

/-- When the added method id is fresh, the method sequence grows by exactly
that method. -/
theorem addMethodIfAbsent_of_fresh (doc : ControllerDocument)
    (m : VerificationMethod)
    (hfresh : ∀ v ∈ doc.verificationMethod, v.id ≠ m.id) :
    doc.addMethodIfAbsent m =
      { doc with verificationMethod := doc.verificationMethod ++ [m] } := by
  unfold ControllerDocument.addMethodIfAbsent
  rw [if_neg]
  simp only [List.any_eq_true, decide_eq_true_eq, not_exists]
  intro v
  rw [not_and]
  intro hv
  exact hfresh v hv

/-- When the reference is fresh, adding under Authentication appends it to
that list and leaves the rest of the document unchanged. -/
theorem addToRelationship_auth_of_fresh (d : ControllerDocument)
    (mid : String) (h : mid ∉ d.authentication) :
    d.addToRelationship mid VerificationMethodRelationship.Authentication =
      { d with authentication := d.authentication ++ [mid] } := by
  simp [ControllerDocument.addToRelationship, h]

/-- When the reference is fresh, adding under KeyAgreement appends it to
that list and leaves the rest of the document unchanged. -/
theorem addToRelationship_ka_of_fresh (d : ControllerDocument)
    (mid : String) (h : mid ∉ d.keyAgreement) :
    d.addToRelationship mid VerificationMethodRelationship.KeyAgreement =
      { d with keyAgreement := d.keyAgreement ++ [mid] } := by
  simp [ControllerDocument.addToRelationship, h]

/-- C1: after every successful rotation for a given identifier and use —
assuming the stored aggregate satisfied the at-most-one-Current invariant
when read — the persisted aggregate holds exactly one key pair with that
use in state Current, and every previously Current key of that use appears
there in retired form: state Historical and private key material absent. -/
theorem roll_rotation_current_key_invariant (env : RollEnv) (req : Request)
    (identifier : Identifier)
    (hread : storeRead env.store req.identifier req.caller env.authorized =
      some identifier)
    (hid : identifier.id = req.identifier)
    (hpre : countCurrent identifier.keyPairs (requestedUse req) ≤ 1)
    (hok : (roll env req).response.statusCode = 201) :
    ∃ final : Identifier,
      storeLookup (roll env req).store req.identifier = some final ∧
      countCurrent final.keyPairs (requestedUse req) = 1 ∧
      ∀ k ∈ identifier.keyPairs, isCurrentFor (requestedUse req) k = true →
        retiredKey k ∈ final.keyPairs := by
  obtain ⟨hne, hpf, identifier2, currentKey, newKey, hread2, hcur, hcreate⟩ :=
    roll_success_inv env req hok
  rw [hread] at hread2
  injection hread2 with hI
  subst hI
  have hcurP : isCurrentFor (requestedUse req) currentKey = true :=
    List.find?_some hcur
  obtain ⟨l₁, l₂, hks, hall⟩ :=
    find?_eq_some_split (isCurrentFor (requestedUse req))
      identifier.keyPairs currentKey hcur
  have hretire := retireFirstCurrent_eq_append (requestedUse req) currentKey
    l₁ l₂ hall hcurP
  have hnew : isCurrentFor (requestedUse req) newKey = true := by
    rw [createKey_ok_inv hcreate]
    simp [isCurrentFor]
  have hl₁ : List.countP (isCurrentFor (requestedUse req)) l₁ = 0 :=
    List.countP_eq_zero.mpr (by intro a ha; rw [hall a ha]; simp)
  have hl₂ : List.countP (isCurrentFor (requestedUse req)) l₂ = 0 := by
    have hp := hpre
    rw [countCurrent, hks, List.countP_append,
      List.countP_cons_of_pos _ _ hcurP, hl₁] at hp
    omega
  rw [roll_success_eq env req identifier currentKey newKey hne hread hcur
    hcreate hpf]
  refine ⟨updatedIdentifier identifier (requestedUse req) newKey, ?_, ?_, ?_⟩
  · rw [← hid]
    exact storeLookup_storeAddOrUpdate
      (updatedIdentifier identifier (requestedUse req) newKey) env.store
  · simp only [updatedIdentifier, countCurrent]
    rw [hks, hretire, List.countP_append, List.countP_append,
      List.countP_cons_of_neg _ _ (by simp [isCurrentFor_retiredKey]),
      List.countP_cons_of_pos _ _ hnew, List.countP_nil, hl₁, hl₂]
  · intro k hk hkP
    rw [hks] at hk
    rcases List.mem_append.mp hk with hk1 | hk2
    · exact absurd hkP (by rw [hall k hk1]; simp)
    · rcases List.mem_cons.mp hk2 with hkc | hk3
      · subst hkc
        simp only [updatedIdentifier]
        rw [hks, hretire]
        simp
      · exfalso
        have h2 : 0 < List.countP (isCurrentFor (requestedUse req)) l₂ :=
          List.countP_pos_iff.mpr ⟨k, hk3, hkP⟩
        omega

/-- Witness for C1 at the concrete sample input: the rotation of the
sample signing key yields exactly one current signing key and retires the
old one. -/
theorem roll_rotation_current_key_invariant_witness :
    ∃ final : Identifier,
      storeLookup (roll sampleEnv sampleReq).store sampleReq.identifier =
        some final ∧
      countCurrent final.keyPairs (requestedUse sampleReq) = 1 ∧
      ∀ k ∈ sampleIdentifier.keyPairs,
        isCurrentFor (requestedUse sampleReq) k = true →
          retiredKey k ∈ final.keyPairs :=
  roll_rotation_current_key_invariant sampleEnv sampleReq sampleIdentifier
    rfl rfl (by decide) rfl

/-- C2: every successful rotation returns status 201, carries the updated
controller document — the very document that was persisted — as the
response body, and that document lists the new verification method (the
fresh key id) in the relationship list derived from the requested use. -/
theorem roll_success_response (env : RollEnv) (req : Request)
    (hok : (roll env req).response.statusCode = 201) :
    ∃ doc : ControllerDocument,
      (roll env req).response.body = ResponseBody.document doc ∧
      env.freshId ∈ doc.relationshipList (rollRelationship (requestedUse req)) ∧
      ∃ final : Identifier,
        (roll env req).store = storeAddOrUpdate env.store final ∧
        final.controllerDocument = doc := by
  obtain ⟨hne, hpf, identifier, currentKey, newKey, hread, hcur, hcreate⟩ :=
    roll_success_inv env req hok
  rw [roll_success_eq env req identifier currentKey newKey hne hread hcur
    hcreate hpf]
  refine ⟨_, rfl, ?_, _, rfl, rfl⟩
  have hkeq := createKey_ok_inv hcreate
  subst hkeq
  show env.freshId ∈
    (ControllerDocument.addVerificationMethod _ _ _).relationshipList _
  rw [addVerificationMethod_single]
  exact mem_relationshipList_addToRelationship _ _ _

/-- Witness for C2 at the concrete sample input: the 201 response body is
the persisted document and its authentication list holds the fresh key. -/
theorem roll_success_response_witness :
    ∃ doc : ControllerDocument,
      (roll sampleEnv sampleReq).response.body = ResponseBody.document doc ∧
      sampleEnv.freshId ∈
        doc.relationshipList (rollRelationship (requestedUse sampleReq)) ∧
      ∃ final : Identifier,
        (roll sampleEnv sampleReq).store =
          storeAddOrUpdate sampleEnv.store final ∧
        final.controllerDocument = doc :=
  roll_success_response sampleEnv sampleReq rfl

/-- C3: when a current key exists for the requested use and the rotation
succeeds, the appended key carries, for each of algorithm, size and curve,
the caller-supplied override when one was supplied and the retired current
key attribute otherwise; with no overrides all three equal the retired key
attributes. -/
theorem roll_parameter_resolution (env : RollEnv) (req : Request)
    (identifier : Identifier) (currentKey : KeyPair)
    (hread : storeRead env.store req.identifier req.caller env.authorized =
      some identifier)
    (hid : identifier.id = req.identifier)
    (hcur : identifier.getCurrentKey (requestedUse req) = some currentKey)
    (hok : (roll env req).response.statusCode = 201) :
    ∃ (final : Identifier) (newKey : KeyPair),
      storeLookup (roll env req).store req.identifier = some final ∧
      final.keyPairs.getLast? = some newKey ∧
      (∀ a, req.alg = some a → newKey.algorithm = a) ∧
      (req.alg = none → newKey.algorithm = currentKey.algorithm) ∧
      (∀ n, req.size = some n → newKey.size = n) ∧
      (req.size = none → newKey.size = currentKey.size) ∧
      (∀ c, req.curve = some c → newKey.curve = some c) ∧
      (req.curve = none → newKey.curve = currentKey.curve) := by
  obtain ⟨hne, hpf, newKey, hcreate⟩ :=
    roll_success_inv_given env req identifier currentKey hread hcur hok
  rw [roll_success_eq env req identifier currentKey newKey hne hread hcur
    hcreate hpf]
  refine ⟨updatedIdentifier identifier (requestedUse req) newKey, newKey,
    ?_, ?_, ?_, ?_, ?_, ?_, ?_, ?_⟩
  · rw [← hid]
    exact storeLookup_storeAddOrUpdate
      (updatedIdentifier identifier (requestedUse req) newKey) env.store
  · show (retireFirstCurrent identifier.keyPairs (requestedUse req) ++
      [newKey]).getLast? = some newKey
    exact List.getLast?_concat _
  · intro a ha
    rw [createKey_ok_inv hcreate]
    simp [effectiveAlg, getQueryParameter, ha]
  · intro ha
    rw [createKey_ok_inv hcreate]
    simp [effectiveAlg, getQueryParameter, ha]
  · intro n hn
    rw [createKey_ok_inv hcreate]
    simp [effectiveSize, getQueryParameter, hn]
  · intro hn
    rw [createKey_ok_inv hcreate]
    simp [effectiveSize, getQueryParameter, hn]
  · intro c hc
    rw [createKey_ok_inv hcreate]
    simp [effectiveCurve, hc]
  · intro hc
    rw [createKey_ok_inv hcreate]
    simp [effectiveCurve, hc]

/-- Witness for C3 at the concrete sample input: rotating with no
overrides yields a key with the retired key algorithm, size and curve. -/
theorem roll_parameter_resolution_witness :
    ∃ (final : Identifier) (newKey : KeyPair),
      storeLookup (roll sampleEnv sampleReq).store sampleReq.identifier =
        some final ∧
      final.keyPairs.getLast? = some newKey ∧
      (∀ a, sampleReq.alg = some a → newKey.algorithm = a) ∧
      (sampleReq.alg = none → newKey.algorithm = sampleKey.algorithm) ∧
      (∀ n, sampleReq.size = some n → newKey.size = n) ∧
      (sampleReq.size = none → newKey.size = sampleKey.size) ∧
      (∀ c, sampleReq.curve = some c → newKey.curve = some c) ∧
      (sampleReq.curve = none → newKey.curve = sampleKey.curve) :=
  roll_parameter_resolution sampleEnv sampleReq sampleIdentifier sampleKey
    rfl rfl rfl rfl

/-- C4: when the aggregate has no current key for the requested use, roll
fails with the KeyNotConfigured error for that identifier and use, the
store contents are unchanged, and the only store access is the read. -/
theorem roll_key_not_configured (env : RollEnv) (req : Request)
    (identifier : Identifier)
    (hne : req.identifier ≠ "")
    (hread : storeRead env.store req.identifier req.caller env.authorized =
      some identifier)
    (hnokey : identifier.getCurrentKey (requestedUse req) = none) :
    (roll env req).response =
      errorResponse
        (RollError.KeyNotConfigured req.identifier (requestedUse req)) ∧
    (roll env req).store = env.store ∧
    (roll env req).storeOps = [StoreOp.read req.identifier req.caller] := by
  refine ⟨?_, ?_, ?_⟩ <;> simp [roll, hne, hread, hnokey]

/-- Witness for C4 at the concrete sample input: asking to rotate the key
agreement key of an aggregate that has only a signing key fails with
KeyNotConfigured and leaves the store untouched. -/
theorem roll_key_not_configured_witness :
    (roll sampleEnv kaReq).response =
      errorResponse
        (RollError.KeyNotConfigured kaReq.identifier (requestedUse kaReq)) ∧
    (roll sampleEnv kaReq).store = sampleEnv.store ∧
    (roll sampleEnv kaReq).storeOps =
      [StoreOp.read kaReq.identifier kaReq.caller] :=
  roll_key_not_configured sampleEnv kaReq sampleIdentifier (by decide) rfl rfl

/-- C5 counterexample: a rotation whose use parameter is the unrecognized
runtime value Unknown "encryption" — a KeyUse outside the closed
Signing/KeyAgreement set — does not fail closed: the endpoint completes
with status 201, silently mapping the use to the KeyAgreement
relationship. -/
theorem roll_unknown_use_not_rejected :
    (roll encEnv encReq).response.statusCode = 201 ∧
    rollRelationship (requestedUse encReq) =
      VerificationMethodRelationship.KeyAgreement :=
  ⟨rfl, rfl⟩

/-- C5 amended: the relationship mapping of the endpoint sends Signing to
Authentication and every other use value — KeyAgreement and any
unrecognized runtime value alike — to KeyAgreement; no use value is
rejected by the mapping. -/
theorem rollRelationship_total_mapping :
    rollRelationship KeyUse.Signing =
      VerificationMethodRelationship.Authentication ∧
    rollRelationship KeyUse.KeyAgreement =
      VerificationMethodRelationship.KeyAgreement ∧
    ∀ s : String, rollRelationship (KeyUse.Unknown s) =
      VerificationMethodRelationship.KeyAgreement :=
  ⟨rfl, rfl, fun _ => rfl⟩

/-- C6: when key generation rejects the resolved parameters, the
InvalidKeyParameters failure is the response, the store contents are
unchanged — so the stored aggregate, its current key, its key list and its
controller document are exactly as read — and the only store access is the
read. -/
theorem roll_invalid_key_parameters_propagates (env : RollEnv)
    (req : Request) (identifier : Identifier) (currentKey : KeyPair)
    (hne : req.identifier ≠ "")
    (hread : storeRead env.store req.identifier req.caller env.authorized =
      some identifier)
    (hcur : identifier.getCurrentKey (requestedUse req) = some currentKey)
    (hbad : KeyPairCreator.createKey (effectiveAlg req currentKey)
      (requestedUse req) (effectiveSize req currentKey)
      (effectiveCurve req currentKey) env.freshId env.freshMaterial =
      Except.error RollError.InvalidKeyParameters) :
    (roll env req).response = errorResponse RollError.InvalidKeyParameters ∧
    (roll env req).store = env.store ∧
    (roll env req).storeOps = [StoreOp.read req.identifier req.caller] := by
  refine ⟨?_, ?_, ?_⟩ <;> simp [roll, hne, hread, hcur, hbad]

/-- Witness for C6 at the concrete sample input: overriding the algorithm
to EdDSA while inheriting the P-256 curve is rejected by key generation
and the rotation is abandoned with the store untouched. -/
theorem roll_invalid_key_parameters_propagates_witness :
    (roll sampleEnv eddsaReq).response =
      errorResponse RollError.InvalidKeyParameters ∧
    (roll sampleEnv eddsaReq).store = sampleEnv.store ∧
    (roll sampleEnv eddsaReq).storeOps =
      [StoreOp.read eddsaReq.identifier eddsaReq.caller] :=
  roll_invalid_key_parameters_propagates sampleEnv eddsaReq sampleIdentifier
    sampleKey (by decide) rfl rfl rfl

/-- C7: when the persist step fails, nothing is committed: the store
contents after the request equal the contents before it, and the response
is not the success response — the outcome is all-or-nothing for the
caller. -/
theorem roll_persist_failure_not_committed (env : RollEnv) (req : Request)
    (hfail : env.persistFails = true) :
    (roll env req).store = env.store ∧
    (roll env req).response.statusCode ≠ 201 := by
  by_cases hne : req.identifier = ""
  · simp [roll, hne, errorResponse, errorStatusCode]
  · cases hread : storeRead env.store req.identifier req.caller
        env.authorized with
    | none => simp [roll, hne, hread, errorResponse, errorStatusCode]
    | some identifier =>
      cases hcur : identifier.getCurrentKey (requestedUse req) with
      | none => simp [roll, hne, hread, hcur, errorResponse, errorStatusCode]
      | some currentKey =>
        cases hcreate : KeyPairCreator.createKey (effectiveAlg req currentKey)
            (requestedUse req) (effectiveSize req currentKey)
            (effectiveCurve req currentKey) env.freshId env.freshMaterial with
        | error e =>
          refine ⟨by simp [roll, hne, hread, hcur, hcreate], ?_⟩
          simpa [roll, hne, hread, hcur, hcreate, errorResponse] using
            errorStatusCode_ne_201 e
        | ok newKey =>
          simp [roll, hne, hread, hcur, hcreate, hfail, errorResponse,
            errorStatusCode]

/-- Witness for C7 at the concrete sample input: with a failing persist
step the sample rotation leaves the store unchanged and does not return
201. -/
theorem roll_persist_failure_not_committed_witness :
    (roll failEnv sampleReq).store = failEnv.store ∧
    (roll failEnv sampleReq).response.statusCode ≠ 201 :=
  roll_persist_failure_not_committed failEnv sampleReq rfl

/-- C8: when the identifier path input is missing, roll responds with the
structured IdentifierNotProvided error carrying the 400 status code, and
the store is never accessed: no operation is recorded and the contents are
unchanged. -/
theorem roll_missing_identifier (env : RollEnv) (req : Request)
    (hmissing : req.identifier = "") :
    (roll env req).response = errorResponse RollError.IdentifierNotProvided ∧
    (roll env req).response.statusCode = 400 ∧
    (roll env req).storeOps = [] ∧
    (roll env req).store = env.store := by
  refine ⟨?_, ?_, ?_, ?_⟩ <;>
    simp [roll, hmissing, errorResponse, errorStatusCode]

/-- Witness for C8 at the concrete sample input: the request with an empty
identifier is rejected with the 400 IdentifierNotProvided error and no
store access. -/
theorem roll_missing_identifier_witness :
    (roll sampleEnv noIdReq).response =
      errorResponse RollError.IdentifierNotProvided ∧
    (roll sampleEnv noIdReq).response.statusCode = 400 ∧
    (roll sampleEnv noIdReq).storeOps = [] ∧
    (roll sampleEnv noIdReq).store = sampleEnv.store :=
  roll_missing_identifier sampleEnv noIdReq rfl

/-- Appending a reference to a relationship list never changes the
document id. -/
theorem addToRelationship_id (d : ControllerDocument) (mid : String)
    (r : VerificationMethodRelationship) :
    (d.addToRelationship mid r).id = d.id := by
  cases r <;> simp only [ControllerDocument.addToRelationship] <;> split <;> rfl

/-- C9: a successful roll changes only what rotation requires.  The
persisted aggregate keeps its id; its key list is the old list with the
single retired key replaced in place by its retired form — every other key
pair verbatim unchanged, in order — plus exactly one appended new key; the
controller document keeps its id, gains exactly one verification method at
the end of its method sequence, and gains exactly one reference in the one
relationship list selected by the requested use, the other relationship
list unchanged. -/
theorem roll_frame_condition (env : RollEnv) (req : Request)
    (identifier : Identifier) (currentKey : KeyPair)
    (hread : storeRead env.store req.identifier req.caller env.authorized =
      some identifier)
    (hid : identifier.id = req.identifier)
    (hcur : identifier.getCurrentKey (requestedUse req) = some currentKey)
    (hok : (roll env req).response.statusCode = 201)
    (hfreshM : ∀ m ∈ identifier.controllerDocument.verificationMethod,
      m.id ≠ env.freshId)
    (hfreshA : env.freshId ∉ identifier.controllerDocument.authentication)
    (hfreshK : env.freshId ∉ identifier.controllerDocument.keyAgreement) :
    ∃ (final : Identifier) (newKey : KeyPair) (l₁ l₂ : List KeyPair),
      storeLookup (roll env req).store req.identifier = some final ∧
      (roll env req).response.body =
        ResponseBody.document final.controllerDocument ∧
      final.id = identifier.id ∧
      newKey.id = env.freshId ∧
      identifier.keyPairs = l₁ ++ currentKey :: l₂ ∧
      final.keyPairs = (l₁ ++ retiredKey currentKey :: l₂) ++ [newKey] ∧
      final.controllerDocument.id = identifier.controllerDocument.id ∧
      final.controllerDocument.verificationMethod =
        identifier.controllerDocument.verificationMethod ++
          [newVerificationMethod identifier newKey] ∧
      (rollRelationship (requestedUse req) =
          VerificationMethodRelationship.Authentication →
        final.controllerDocument.authentication =
          identifier.controllerDocument.authentication ++ [env.freshId] ∧
        final.controllerDocument.keyAgreement =
          identifier.controllerDocument.keyAgreement) ∧
      (rollRelationship (requestedUse req) =
          VerificationMethodRelationship.KeyAgreement →
        final.controllerDocument.keyAgreement =
          identifier.controllerDocument.keyAgreement ++ [env.freshId] ∧
        final.controllerDocument.authentication =
          identifier.controllerDocument.authentication) := by
  obtain ⟨hne, hpf, newKey, hcreate⟩ :=
    roll_success_inv_given env req identifier currentKey hread hcur hok
  have hcurP : isCurrentFor (requestedUse req) currentKey = true :=
    List.find?_some hcur
  obtain ⟨l₁, l₂, hks, hall⟩ :=
    find?_eq_some_split (isCurrentFor (requestedUse req))
      identifier.keyPairs currentKey hcur
  have hretire := retireFirstCurrent_eq_append (requestedUse req) currentKey
    l₁ l₂ hall hcurP
  have hkid : newKey.id = env.freshId := by rw [createKey_ok_inv hcreate]
  have hvmid : (newVerificationMethod identifier newKey).id = env.freshId :=
    hkid
  have hM : identifier.controllerDocument.addMethodIfAbsent
      (newVerificationMethod identifier newKey) =
      { identifier.controllerDocument with
        verificationMethod :=
          identifier.controllerDocument.verificationMethod ++
            [newVerificationMethod identifier newKey] } :=
    addMethodIfAbsent_of_fresh _ _ (by
      intro v hv
      rw [hvmid]
      exact hfreshM v hv)
  rw [roll_success_eq env req identifier currentKey newKey hne hread hcur
    hcreate hpf]
  refine ⟨updatedIdentifier identifier (requestedUse req) newKey, newKey,
    l₁, l₂, ?_, rfl, rfl, hkid, hks, ?_, ?_, ?_, ?_, ?_⟩
  · rw [← hid]
    exact storeLookup_storeAddOrUpdate
      (updatedIdentifier identifier (requestedUse req) newKey) env.store
  · simp only [updatedIdentifier]
    rw [hks, hretire]
  · simp only [updatedIdentifier, ControllerDocument.addVerificationMethod,
      List.foldl]
    rw [addToRelationship_id, hM]
  · simp only [updatedIdentifier, ControllerDocument.addVerificationMethod,
      List.foldl]
    rw [addToRelationship_verificationMethod, hM]
  · intro hrel
    simp only [updatedIdentifier, ControllerDocument.addVerificationMethod,
      List.foldl, hrel]
    rw [hM, addToRelationship_auth_of_fresh _ _ (by rw [hvmid]; exact hfreshA)]
    exact ⟨by rw [hvmid], rfl⟩
  · intro hrel
    simp only [updatedIdentifier, ControllerDocument.addVerificationMethod,
      List.foldl, hrel]
    rw [hM, addToRelationship_ka_of_fresh _ _ (by rw [hvmid]; exact hfreshK)]
    exact ⟨by rw [hvmid], rfl⟩

/-- Witness for C9 at the concrete sample input: the sample rotation
splits the key list around the single signing key and performs exactly the
described appends. -/
theorem roll_frame_condition_witness :
    ∃ (final : Identifier) (newKey : KeyPair) (l₁ l₂ : List KeyPair),
      storeLookup (roll sampleEnv sampleReq).store sampleReq.identifier =
        some final ∧
      (roll sampleEnv sampleReq).response.body =
        ResponseBody.document final.controllerDocument ∧
      final.id = sampleIdentifier.id ∧
      newKey.id = sampleEnv.freshId ∧
      sampleIdentifier.keyPairs = l₁ ++ sampleKey :: l₂ ∧
      final.keyPairs = (l₁ ++ retiredKey sampleKey :: l₂) ++ [newKey] ∧
      final.controllerDocument.id = sampleIdentifier.controllerDocument.id ∧
      final.controllerDocument.verificationMethod =
        sampleIdentifier.controllerDocument.verificationMethod ++
          [newVerificationMethod sampleIdentifier newKey] ∧
      (rollRelationship (requestedUse sampleReq) =
          VerificationMethodRelationship.Authentication →
        final.controllerDocument.authentication =
          sampleIdentifier.controllerDocument.authentication ++
            [sampleEnv.freshId] ∧
        final.controllerDocument.keyAgreement =
          sampleIdentifier.controllerDocument.keyAgreement) ∧
      (rollRelationship (requestedUse sampleReq) =
          VerificationMethodRelationship.KeyAgreement →
        final.controllerDocument.keyAgreement =
          sampleIdentifier.controllerDocument.keyAgreement ++
            [sampleEnv.freshId] ∧
        final.controllerDocument.authentication =
          sampleIdentifier.controllerDocument.authentication) :=
  roll_frame_condition sampleEnv sampleReq sampleIdentifier sampleKey rfl rfl
    rfl rfl (by decide) (by decide) (by decide)

/-- C10: the verification method built for the new key carries only public
material — its JWK never holds the private component — and therefore, when
the document read from the store was free of private material, so is the
document returned to the caller, which is also the one persisted. -/
theorem roll_no_private_material (env : RollEnv) (req : Request)
    (identifier : Identifier)
    (hread : storeRead env.store req.identifier req.caller env.authorized =
      some identifier)
    (hclean : docHasNoPrivate identifier.controllerDocument)
    (hok : (roll env req).response.statusCode = 201) :
    (∀ k : KeyPair, (k.asJwk false).d = none) ∧
    ∃ doc : ControllerDocument,
      (roll env req).response.body = ResponseBody.document doc ∧
      docHasNoPrivate doc ∧
      ∃ final : Identifier,
        (roll env req).store = storeAddOrUpdate env.store final ∧
        final.controllerDocument = doc := by
  refine ⟨fun k => rfl, ?_⟩
  obtain ⟨hne, hpf, identifier2, currentKey, newKey, hread2, hcur, hcreate⟩ :=
    roll_success_inv env req hok
  rw [hread] at hread2
  injection hread2 with hI
  subst hI
  rw [roll_success_eq env req identifier currentKey newKey hne hread hcur
    hcreate hpf]
  refine ⟨_, rfl, ?_, _, rfl, rfl⟩
  intro m hm
  rcases mem_addVerificationMethod_methods identifier.controllerDocument
      (newVerificationMethod identifier newKey)
      [rollRelationship (requestedUse req)] m hm with h | h
  · exact hclean m h
  · rw [h]
    rfl

/-- Witness for C10 at the concrete sample input: the sample rotation
returns and persists a document whose methods all lack the private JWK
component. -/
theorem roll_no_private_material_witness :
    (∀ k : KeyPair, (k.asJwk false).d = none) ∧
    ∃ doc : ControllerDocument,
      (roll sampleEnv sampleReq).response.body =
        ResponseBody.document doc ∧
      docHasNoPrivate doc ∧
      ∃ final : Identifier,
        (roll sampleEnv sampleReq).store =
          storeAddOrUpdate sampleEnv.store final ∧
        final.controllerDocument = doc :=
  roll_no_private_material sampleEnv sampleReq sampleIdentifier rfl
    (by intro m hm; exact absurd hm (List.not_mem_nil m)) rfl
